import Mathlib

/-!
Shallow embedding of the submenu reactive controller
(src/components/menu-item/submenu-controller.ts) and proofs about it.

The controller manages event-listener lifecycle for a submenu-owning menu
item, drives the active flag of an anchored popup, handles keyboard
navigation into and out of the submenu, and computes a positioning offset
(skidding).  All definitions below are translated from the source file;
stateful methods become explicit state-passing functions, and observable
effects (listener registrations performed, re-render requests issued,
error diagnostics emitted, focus calls, the deferred continuation) become
explicit outputs.  Every function is total, which models the fact that no
operation of the source throws past its own body.
-/

namespace Submenu

/-- Targets of addEventListener and removeEventListener calls in the source:
the host element, the document, or the popup element. -/
inductive EvtTarget where
  | host
  | doc
  | popup
  deriving DecidableEq

/-- One listener registration: a target plus an event-type string. -/
structure ListenerReg where
  target : EvtTarget
  evt : String
  deriving DecidableEq

/-- The popup primitive as the controller sees it: only the boolean active
property matters (source: SlPopup, field active). -/
structure SlPopup where
  active : Bool
  deriving DecidableEq

/-- Controller state.  Fields mirror the class fields: isConnected, skidding,
and the optional popup reference (popupRef.value, absent until first render).
The registered field records the currently registered listener set, which in
the source lives in the DOM event tables of the host, the document and the
popup. -/
structure Ctrl where
  isConnected : Bool
  skidding : ℚ
  registered : List ListenerReg
  popup : Option SlPopup
  deriving DecidableEq

/-- DOM addEventListener semantics: re-adding an already registered listener
with the same target and type is a no-op. -/
def addEventListener (regs : List ListenerReg) (l : ListenerReg) : List ListenerReg :=
  if l ∈ regs then regs else regs ++ [l]

/-- DOM removeEventListener semantics: removing a listener that is not
registered is a no-op and raises no error. -/
def removeEventListener (regs : List ListenerReg) (l : ListenerReg) : List ListenerReg :=
  regs.erase l

/-- The four host listeners registered by addListeners (source lines 69..73):
mouseover, keydown, click and focusout, each on the host. -/
def hostListenerSet : List ListenerReg :=
  [⟨EvtTarget.host, "mouseover"⟩, ⟨EvtTarget.host, "keydown"⟩,
   ⟨EvtTarget.host, "click"⟩, ⟨EvtTarget.host, "focusout"⟩]

/-- All five registrations performed by addListeners: the four host listeners
plus mousedown on the document (source line 74). -/
def listenersFull : List ListenerReg :=
  hostListenerSet ++ [⟨EvtTarget.doc, "mousedown"⟩]

/-- addListeners (source lines 67..78): when not yet connected, register the
four host listeners and the document mousedown listener and set isConnected;
otherwise do nothing.  Returns the new state together with the list of
addEventListener calls performed, in order. -/
def addListeners (s : Ctrl) : Ctrl × List ListenerReg :=
  if !s.isConnected then
    ({ s with
        registered := listenersFull.foldl addEventListener s.registered,
        isConnected := true },
     listenersFull)
  else (s, [])

/-- removeListeners (source lines 80..94): when connected, first remove the
popup mouseover listener when the popup reference is present, then remove the
four host listeners and the document mousedown listener, and clear
isConnected; otherwise do nothing.  Returns the new state together with the
list of removeEventListener calls performed, in order. -/
def removeListeners (s : Ctrl) : Ctrl × List ListenerReg :=
  if s.isConnected then
    let rems :=
      (match s.popup with
        | some _ => [ListenerReg.mk EvtTarget.popup "mouseover"]
        | none => []) ++ listenersFull
    ({ s with
        registered := rems.foldl removeEventListener s.registered,
        isConnected := false },
     rems)
  else (s, [])

/-- A resolved CSS style value as returned by computedStyleMap: either a
CSSUnitValue already resolved to a pixel length, or some non-length value,
which the controller replaces by a zero pixel length. -/
inductive CSSStyleValue where
  | unitPx (value : ℚ)
  | nonLength
  deriving DecidableEq

/-- The three attributes read by updateSkidding (source line 255). -/
def skiddingAttrs : List String := ["padding-top", "border-top-width", "margin-top"]

/-- The reduce body of updateSkidding (source lines 258..263): for each
attribute, look up the resolved style value, default a missing entry to a
zero pixel length, replace a non-unit value by a zero pixel length, convert
to pixels, and subtract from the accumulator, starting at zero. -/
def skiddingOf (styleMap : String → Option CSSStyleValue) : ℚ :=
  skiddingAttrs.foldl
    (fun accum attr =>
      let styleValue := (styleMap attr).getD (CSSStyleValue.unitPx 0)
      let pxValue :=
        match styleValue with
        | CSSStyleValue.unitPx v => v
        | CSSStyleValue.nonLength => 0
      accum - pxValue)
    0

/-- updateSkidding (source lines 254..266): store the computed offset. -/
def updateSkidding (styleMap : String → Option CSSStyleValue) (s : Ctrl) : Ctrl :=
  { s with skidding := skiddingOf styleMap }

/-- hostConnected (source lines 48..52).  The guard inputs are the results of
hasSlotController.test and host.disabled at invocation time. -/
def hostConnected (hasSubmenuSlot disabled : Bool) (s : Ctrl) : Ctrl :=
  if hasSubmenuSlot && !disabled then (addListeners s).1 else s

/-- hostDisconnected (source lines 54..56). -/
def hostDisconnected (s : Ctrl) : Ctrl :=
  (removeListeners s).1

/-- hostUpdated (source lines 58..65): when the guard holds, ensure listeners
are attached and recompute the skidding; otherwise detach the listeners. -/
def hostUpdated (hasSubmenuSlot disabled : Bool)
    (styleMap : String → Option CSSStyleValue) (s : Ctrl) : Ctrl :=
  if hasSubmenuSlot && !disabled then updateSkidding styleMap (addListeners s).1
  else (removeListeners s).1

/-- setSubmenuState (source lines 235..242): when the popup reference is
present and its active flag differs from the requested state, write the flag
and request one host re-render; otherwise do nothing.  The second component
counts the requestUpdate calls issued. -/
def setSubmenuState (state : Bool) (s : Ctrl) : Ctrl × Nat :=
  match s.popup with
  | none => (s, 0)
  | some p =>
    if p.active != state then ({ s with popup := some ⟨state⟩ }, 1)
    else (s, 0)

/-- enableSubmenu (source lines 244..247). -/
def enableSubmenu (s : Ctrl) : Ctrl × Nat :=
  setSubmenuState true s

/-- disableSubmenu (source lines 249..251). -/
def disableSubmenu (s : Ctrl) : Ctrl × Nat :=
  setSubmenuState false s

/-- isExpanded (source lines 268..270). -/
def isExpanded (s : Ctrl) : Bool :=
  match s.popup with
  | some p => p.active
  | none => false

/-- handleMouseOver (source lines 102..109): when the submenu slot has
assigned content, enable the submenu. -/
def handleMouseOver (hasSubmenuSlot : Bool) (s : Ctrl) : Ctrl × Nat :=
  if hasSubmenuSlot then enableSubmenu s else (s, 0)

/-- The relatedTarget of a focusout event: null, an element (with the result
of host.contains on it), or a non-element event target. -/
inductive RelatedTarget where
  | null
  | element (containedInHost : Bool)
  | nonElement
  deriving DecidableEq

/-- handleFocusOut (source lines 209..225): close when the related target is
null, or is an element the host does not contain. -/
def handleFocusOut (relatedTarget : RelatedTarget) (s : Ctrl) : Ctrl × Nat :=
  match relatedTarget with
  | RelatedTarget.null => disableSubmenu s
  | RelatedTarget.element contained =>
    if !contained then disableSubmenu s else (s, 0)
  | RelatedTarget.nonElement => (s, 0)

/-- handleDocumentMouseDown (source lines 227..233): close when the composed
path of the mousedown event does not include the host. -/
def handleDocumentMouseDown (pathIncludesHost : Bool) (s : Ctrl) : Ctrl × Nat :=
  if !pathIncludesHost then disableSubmenu s else (s, 0)

/-- handleClick (source lines 198..204): when the click target is exactly the
host, prevent default and stop propagation; returns (prevented, stopped).
No state is touched. -/
def handleClick (targetIsHost : Bool) : Bool × Bool :=
  if targetIsHost then (true, true) else (false, false)

/-- A DOM element for the first-eligible-item search: tag name, optional role
attribute, and child elements in document order. -/
inductive DomNode where
  | mk (tag : String) (role : Option String) (children : List DomNode)

/-- Tag name of a node. -/
def DomNode.tag : DomNode → String
  | DomNode.mk t _ _ => t

/-- Role attribute of a node. -/
def DomNode.role : DomNode → Option String
  | DomNode.mk _ r _ => r

/-- Children of a node, in document order. -/
def DomNode.children : DomNode → List DomNode
  | DomNode.mk _ _ c => c

/-- The selector used at source line 166: an element matches when its tag is
sl-menu-item or its role attribute begins with menuitem. -/
def matchesMenuItem (n : DomNode) : Bool :=
  n.tag == "sl-menu-item" ||
    (match n.role with
      | some r => r.startsWith "menuitem"
      | none => false)

mutual

/-- First matching element of the inclusive subtree of a node, in document
(pre-order) order. -/
def findMenuItemIncl : DomNode → Option DomNode
  | DomNode.mk t r cs =>
    if matchesMenuItem (DomNode.mk t r cs) then some (DomNode.mk t r cs)
    else findMenuItemInList cs

/-- First matching element across a list of inclusive subtrees, in order. -/
def findMenuItemInList : List DomNode → Option DomNode
  | [] => none
  | c :: cs =>
    match findMenuItemIncl c with
    | some m => some m
    | none => findMenuItemInList cs

end

/-- elt.querySelector with the menu-item selector: the first matching strict
descendant of elt in document order (querySelector never returns the element
it is invoked on). -/
def querySelectorMenuItem (n : DomNode) : Option DomNode :=
  findMenuItemInList n.children

/-- The firstMenuItem search loop of handleKeyDown (source lines 163..171):
run querySelector on each assigned element, in assignment order, and stop at
the first element for which it returns a match. -/
def firstMenuItem : List DomNode → Option DomNode
  | [] => none
  | elt :: elts =>
    match querySelectorMenuItem elt with
    | some m => some m
    | none => firstMenuItem elts

mutual

/-- The inclusive subtree of a node flattened in document (pre-order) order. -/
def preorderIncl : DomNode → List DomNode
  | DomNode.mk t r cs => DomNode.mk t r cs :: preorderList cs

/-- A list of inclusive subtrees flattened in document order. -/
def preorderList : List DomNode → List DomNode
  | [] => []
  | c :: cs => preorderIncl c ++ preorderList cs

end

/-- Written from the spec wording of first-eligible-item resolution (section
4.3): search each top-level assigned node and its whole subtree (the node
itself included), in document order, for the first element that is tagged as
a menu item or carries a role attribute beginning with menuitem, and return
the first match across all assigned nodes.  To be compared with
firstMenuItem, the embedding of the source loop. -/
def firstMenuItemSpec (assigned : List DomNode) : Option DomNode :=
  ((assigned.map preorderIncl).flatten).find? matchesMenuItem

/-- The result of host.querySelector(focus) in the ArrowLeft branch: the
focused element is the host itself or a descendant of it, when any. -/
inductive FocusedElement where
  | hostItself
  | descendant
  deriving DecidableEq

/-- Observable outcome of one handleKeyDown invocation: the new state plus
the effects the handler performed: preventDefault, stopPropagation, the
number of requestUpdate calls, the number of console error diagnostics, a
host.focus call, an immediate focus call on a found menu item, and the
deferred focus continuation scheduled on updateComplete. -/
structure KeyResult where
  state : Ctrl
  prevented : Bool := false
  stopped : Bool := false
  requestUpdates : Nat := 0
  errors : Nat := 0
  focusHost : Bool := false
  focusNow : Option DomNode := none
  deferredFocus : Option DomNode := none

/-- handleKeyDown (source lines 127..196).  Inputs beyond the key: the result
of host.querySelector(focus), whether the submenu slot element was found in
the render root, and the elements assigned to the submenu slot. -/
def handleKeyDown (key : String) (focusedElt : Option FocusedElement)
    (submenuSlotFound : Bool) (assigned : List DomNode) (s : Ctrl) : KeyResult :=
  match key with
  | "Escape" | "Tab" =>
    let r := disableSubmenu s
    { state := r.1, requestUpdates := r.2 }
  | "ArrowLeft" =>
    match focusedElt with
    | some FocusedElement.descendant =>
      let r := disableSubmenu s
      { state := r.1, prevented := true, stopped := true,
        focusHost := true, requestUpdates := r.2 }
    | _ => { state := s }
  | "ArrowRight" | "Enter" | " " =>
    if !submenuSlotFound then { state := s, errors := 1 }
    else
      match firstMenuItem assigned with
      | none => { state := s, errors := 1 }
      | some item =>
        match s.popup with
        | none => { state := s }
        | some p =>
          if p.active then
            { state := s, prevented := true, stopped := true, focusNow := some item }
          else
            let r := enableSubmenu s
            { state := r.1, prevented := true, stopped := true,
              requestUpdates := r.2 + 1, deferredFocus := some item }
  | _ => { state := s }

/-- The updateComplete continuation scheduled on a keyboard-driven open
(source lines 186..188).  Its body consists of the single focus call on the
captured first menu item and consults no connection state, so when it fires
it performs that focus call unconditionally.  Returns the list of focus
calls performed at firing time. -/
def fireContinuation : Option DomNode → List DomNode
  | some m => [m]
  | none => []

/-- One host lifecycle callback together with the environment it observes:
the two guard inputs for hostConnected and hostUpdated, and the computed
style map of the host parent for hostUpdated. -/
inductive LEvent where
  | connected (hasSubmenuSlot disabled : Bool)
  | updated (hasSubmenuSlot disabled : Bool) (styleMap : String → Option CSSStyleValue)
  | disconnected

/-- Dispatch one lifecycle callback. -/
def stepL (s : Ctrl) : LEvent → Ctrl
  | LEvent.connected hs dis => hostConnected hs dis s
  | LEvent.updated hs dis m => hostUpdated hs dis m s
  | LEvent.disconnected => hostDisconnected s

/-- Run a sequence of lifecycle callbacks. -/
def runL (s : Ctrl) : List LEvent → Ctrl
  | [] => s
  | e :: es => runL (stepL s e) es

/-- The controller state at construction: not connected, zero skidding, no
listener registered; the popup reference may or may not be present. -/
def initCtrl (popup : Option SlPopup) : Ctrl :=
  { isConnected := false, skidding := 0, registered := [], popup := popup }

/-- The guard value recorded by the most recent guard evaluation of a trace,
scanning left to right: hostConnected and hostUpdated each evaluate the
guard, hostDisconnected does not; d is the default when no evaluation has
occurred yet. -/
def lastGuardD (d : Bool) : List LEvent → Bool
  | [] => d
  | LEvent.connected hs dis :: es => lastGuardD (hs && !dis) es
  | LEvent.updated hs dis _ :: es => lastGuardD (hs && !dis) es
  | LEvent.disconnected :: es => lastGuardD d es

/-- Well-formed traces from a given state: hostConnected is only invoked
while the listener set is detached, which is how the host lifecycle drives
the controller (connect and disconnect alternate). -/
def wfFrom (s : Ctrl) : List LEvent → Bool
  | [] => true
  | e :: es =>
    (match e with
      | LEvent.connected _ _ => !s.isConnected
      | _ => true) && wfFrom (stepL s e) es

/-- The pixel contribution of one resolved style value: an absent entry and a
non-length value each contribute zero. -/
def pxOf : Option CSSStyleValue → ℚ
  | some (CSSStyleValue.unitPx v) => v
  | some CSSStyleValue.nonLength => 0
  | none => 0

/-- The listener set matches the connected flag: exactly the five-listener
set is registered while the flag is up, and nothing while it is down. -/
def listenersMatchFlag (s : Ctrl) : Prop :=
  (s.isConnected = true ∧ s.registered = listenersFull)
  ∨ (s.isConnected = false ∧ s.registered = [])

/-- A leaf menu item, as a concrete fixture. -/
def menuLeaf : DomNode := DomNode.mk "sl-menu-item" none []

/-- A menu element containing one menu item, as a concrete fixture. -/
def menuWrap : DomNode := DomNode.mk "sl-menu" none [menuLeaf]

/-- A connected controller with no popup rendered, as a concrete fixture. -/
def connCtrl : Ctrl :=
  { isConnected := true, skidding := 0, registered := listenersFull, popup := none }

/-- A connected controller whose popup is rendered and closed. -/
def closedCtrl : Ctrl :=
  { isConnected := true, skidding := 0, registered := listenersFull, popup := some ⟨false⟩ }

/-- A connected controller whose popup is rendered and open. -/
def openCtrl : Ctrl :=
  { isConnected := true, skidding := 0, registered := listenersFull, popup := some ⟨true⟩ }

/-- A computed style map with top padding 8px, top border width 1px and top
margin 2px. -/
def exampleStyleMap : String → Option CSSStyleValue := fun attr =>
  if attr = "padding-top" then some (CSSStyleValue.unitPx 8)
  else if attr = "border-top-width" then some (CSSStyleValue.unitPx 1)
  else if attr = "margin-top" then some (CSSStyleValue.unitPx 2)
  else none

/-! ## Helper lemmas -/

theorem addListeners_fst_isConnected (s : Ctrl) : (addListeners s).1.isConnected = true := by
  rcases s with ⟨c, sk, reg, p⟩
  cases c <;> simp [addListeners]

theorem removeListeners_fst_isConnected (s : Ctrl) :
    (removeListeners s).1.isConnected = false := by
  rcases s with ⟨c, sk, reg, p⟩
  cases c <;> simp [removeListeners]

theorem addListeners_fst_skidding (s : Ctrl) : (addListeners s).1.skidding = s.skidding := by
  rcases s with ⟨c, sk, reg, p⟩
  cases c <;> simp [addListeners]

theorem removeListeners_fst_skidding (s : Ctrl) :
    (removeListeners s).1.skidding = s.skidding := by
  rcases s with ⟨c, sk, reg, p⟩
  cases c <;> simp [removeListeners]

theorem setSubmenuState_fst_skidding (b : Bool) (s : Ctrl) :
    (setSubmenuState b s).1.skidding = s.skidding := by
  unfold setSubmenuState
  rcases s with ⟨c, sk, reg, _ | p⟩
  · rfl
  · dsimp only
    split <;> rfl

theorem foldl_add_from_nil : listenersFull.foldl addEventListener [] = listenersFull := by
  decide

theorem foldl_remove_none :
    listenersFull.foldl removeEventListener listenersFull = [] := by
  decide

theorem foldl_remove_some :
    (ListenerReg.mk EvtTarget.popup "mouseover" :: listenersFull).foldl
      removeEventListener listenersFull = [] := by
  decide

theorem addListeners_inv (s : Ctrl) (h : listenersMatchFlag s) :
    listenersMatchFlag (addListeners s).1 := by
  rcases h with ⟨h1, h2⟩ | ⟨h1, h2⟩
  · rw [addListeners, h1]
    exact Or.inl ⟨h1, h2⟩
  · rw [addListeners, h1]
    simp only [Bool.not_false, if_true]
    exact Or.inl ⟨rfl, by rw [h2]; exact foldl_add_from_nil⟩

theorem removeListeners_inv (s : Ctrl) (h : listenersMatchFlag s) :
    listenersMatchFlag (removeListeners s).1 := by
  rcases h with ⟨h1, h2⟩ | ⟨h1, h2⟩
  · rw [removeListeners, h1]
    simp only [if_true]
    refine Or.inr ⟨rfl, ?_⟩
    rcases hp : s.popup with _ | p <;> simp only [hp, h2]
    · exact foldl_remove_none
    · exact foldl_remove_some
  · rw [removeListeners, h1]
    exact Or.inr ⟨h1, h2⟩

theorem stepL_inv (s : Ctrl) (e : LEvent) (h : listenersMatchFlag s) :
    listenersMatchFlag (stepL s e) := by
  cases e with
  | connected hs dis =>
    rw [stepL, hostConnected]
    split
    · exact addListeners_inv s h
    · exact h
  | updated hs dis m =>
    rw [stepL, hostUpdated]
    split
    · have h2 := addListeners_inv s h
      rcases h2 with ⟨h1, h2⟩ | ⟨h1, h2⟩
      · exact Or.inl ⟨h1, h2⟩
      · exact Or.inr ⟨h1, h2⟩
    · exact removeListeners_inv s h
  | disconnected =>
    exact removeListeners_inv s h

theorem runL_inv (es : List LEvent) (s : Ctrl) (h : listenersMatchFlag s) :
    listenersMatchFlag (runL s es) := by
  induction es generalizing s with
  | nil => exact h
  | cons e es ih => exact ih (stepL s e) (stepL_inv s e h)

theorem runL_lastGuard (es : List LEvent) (s : Ctrl) (d : Bool)
    (hd : s.isConnected = true → d = true)
    (hwf : wfFrom s es = true)
    (hc : (runL s es).isConnected = true) :
    lastGuardD d es = true := by
  induction es generalizing s d with
  | nil => exact hd hc
  | cons e es ih =>
    cases e with
    | connected hs dis =>
      rw [wfFrom, Bool.and_eq_true] at hwf
      have h1 : s.isConnected = false := by
        have := hwf.1
        simp only [Bool.not_eq_true'] at this
        exact this
      rw [lastGuardD]
      refine ih (stepL s (LEvent.connected hs dis)) (hs && !dis) ?_ hwf.2 hc
      intro hcon
      by_cases hg : (hs && !dis) = true
      · exact hg
      · exfalso
        rw [stepL, hostConnected, if_neg (by simp [Bool.not_eq_true] at hg ⊢; exact hg)] at hcon
        rw [h1] at hcon
        exact Bool.false_ne_true hcon
    | updated hs dis m =>
      simp only [wfFrom, Bool.true_and] at hwf
      rw [lastGuardD]
      refine ih (stepL s (LEvent.updated hs dis m)) (hs && !dis) ?_ hwf hc
      intro hcon
      by_cases hg : (hs && !dis) = true
      · exact hg
      · exfalso
        rw [stepL, hostUpdated, if_neg (by simp [Bool.not_eq_true] at hg ⊢; exact hg)] at hcon
        rw [removeListeners_fst_isConnected] at hcon
        exact Bool.false_ne_true hcon
    | disconnected =>
      simp only [wfFrom, Bool.true_and] at hwf
      rw [lastGuardD]
      refine ih (stepL s LEvent.disconnected) d ?_ hwf hc
      intro hcon
      exfalso
      rw [stepL, hostDisconnected, removeListeners_fst_isConnected] at hcon
      exact Bool.false_ne_true hcon

theorem getD_match_eq_pxOf (o : Option CSSStyleValue) :
    (match o.getD (CSSStyleValue.unitPx 0) with
      | CSSStyleValue.unitPx v => v
      | CSSStyleValue.nonLength => 0) = pxOf o := by
  rcases o with _ | v
  · rfl
  · rcases v with v | _ <;> rfl

theorem skiddingOf_eq_neg_sum (m : String → Option CSSStyleValue) :
    skiddingOf m =
      -(pxOf (m "padding-top") + pxOf (m "border-top-width") + pxOf (m "margin-top")) := by
  simp only [skiddingOf, skiddingAttrs, List.foldl, getD_match_eq_pxOf]
  ring

mutual

theorem findMenuItemIncl_eq : ∀ n : DomNode,
    findMenuItemIncl n = (preorderIncl n).find? matchesMenuItem
  | DomNode.mk t r cs => by
    rw [findMenuItemIncl, preorderIncl, List.find?_cons]
    by_cases h : matchesMenuItem (DomNode.mk t r cs)
    · simp only [h, if_true]
    · simp only [h, if_false, Bool.false_eq_true, findMenuItemInList_eq cs]

theorem findMenuItemInList_eq : ∀ l : List DomNode,
    findMenuItemInList l = (preorderList l).find? matchesMenuItem
  | [] => rfl
  | c :: cs => by
    rw [findMenuItemInList, preorderList, List.find?_append,
      ← findMenuItemIncl_eq c, ← findMenuItemInList_eq cs]
    cases findMenuItemIncl c <;> rfl

end

theorem firstMenuItem_eq_find (asg : List DomNode) :
    firstMenuItem asg =
      ((asg.map (fun e => preorderList e.children)).flatten).find? matchesMenuItem := by
  induction asg with
  | nil => rfl
  | cons e es ih =>
    rw [firstMenuItem, querySelectorMenuItem, List.map_cons, List.flatten_cons,
      List.find?_append, findMenuItemInList_eq, ← ih]
    cases (preorderList e.children).find? matchesMenuItem <;> rfl

/-! ## Unfolding lemmas for handleKeyDown at each key -/

theorem handleKeyDown_escape (fq : Option FocusedElement) (slot : Bool)
    (asg : List DomNode) (s : Ctrl) :
    handleKeyDown "Escape" fq slot asg s =
      { state := (disableSubmenu s).1, requestUpdates := (disableSubmenu s).2 } := rfl

theorem handleKeyDown_tab (fq : Option FocusedElement) (slot : Bool)
    (asg : List DomNode) (s : Ctrl) :
    handleKeyDown "Tab" fq slot asg s =
      { state := (disableSubmenu s).1, requestUpdates := (disableSubmenu s).2 } := rfl

theorem handleKeyDown_arrowLeft (fq : Option FocusedElement) (slot : Bool)
    (asg : List DomNode) (s : Ctrl) :
    handleKeyDown "ArrowLeft" fq slot asg s =
      (match fq with
        | some FocusedElement.descendant =>
          { state := (disableSubmenu s).1, prevented := true, stopped := true,
            focusHost := true, requestUpdates := (disableSubmenu s).2 }
        | _ => { state := s }) := rfl

theorem handleKeyDown_arrowRight (fq : Option FocusedElement) (slot : Bool)
    (asg : List DomNode) (s : Ctrl) :
    handleKeyDown "ArrowRight" fq slot asg s =
      (if !slot then { state := s, errors := 1 }
       else
         match firstMenuItem asg with
         | none => { state := s, errors := 1 }
         | some item =>
           match s.popup with
           | none => { state := s }
           | some p =>
             if p.active then
               { state := s, prevented := true, stopped := true, focusNow := some item }
             else
               { state := (enableSubmenu s).1, prevented := true, stopped := true,
                 requestUpdates := (enableSubmenu s).2 + 1, deferredFocus := some item }) := rfl

theorem handleKeyDown_enter_eq (fq : Option FocusedElement) (slot : Bool)
    (asg : List DomNode) (s : Ctrl) :
    handleKeyDown "Enter" fq slot asg s = handleKeyDown "ArrowRight" fq slot asg s := rfl

theorem handleKeyDown_space_eq (fq : Option FocusedElement) (slot : Bool)
    (asg : List DomNode) (s : Ctrl) :
    handleKeyDown " " fq slot asg s = handleKeyDown "ArrowRight" fq slot asg s := rfl

theorem handleKeyDown_skidding (key : String) (fq : Option FocusedElement) (slot : Bool)
    (asg : List DomNode) (s : Ctrl) :
    (handleKeyDown key fq slot asg s).state.skidding = s.skidding := by
  unfold handleKeyDown
  repeat' split
  all_goals simp [disableSubmenu, enableSubmenu, setSubmenuState_fst_skidding]

/-! ## Claim C1 -/

/-- Claim C1, counterexample to the claim as stated.  The claim quantifies over
every sequence of hostConnected, hostUpdated and hostDisconnected invocations
and asserts that the connected flag is true only when the most recent guard
evaluation was true.  After the sequence hostConnected with guard true followed
by hostConnected with guard false, the listener set is still registered and the
flag is still true, although the most recent guard evaluation (performed by the
second hostConnected) was false: hostConnected never detaches. -/
theorem C1_counterexample :
    (runL (initCtrl none)
        [LEvent.connected true false, LEvent.connected false false]).isConnected = true
    ∧ (runL (initCtrl none)
        [LEvent.connected true false, LEvent.connected false false]).registered = listenersFull
    ∧ lastGuardD false
        [LEvent.connected true false, LEvent.connected false false] = false := by
  decide

/-- Claim C1, amended.  For every sequence of lifecycle invocations the
listener set is registered iff the isConnected flag is true; addListeners on an
already attached controller registers nothing and changes nothing, and
removeListeners on a detached controller removes nothing and changes nothing
(and, being total, raises no error); and for every sequence in which
hostConnected is only invoked while the listeners are detached (as the host
lifecycle guarantees), the flag is true only when the most recent guard
evaluation (submenu slot has assigned content and host not disabled) was
true. -/
theorem C1_listener_flag_invariant :
    (∀ (p : Option SlPopup) (es : List LEvent), listenersMatchFlag (runL (initCtrl p) es))
  ∧ (∀ (p : Option SlPopup) (es : List LEvent),
      wfFrom (initCtrl p) es = true → (runL (initCtrl p) es).isConnected = true →
      lastGuardD false es = true)
  ∧ (∀ s : Ctrl, s.isConnected = true → addListeners s = (s, []))
  ∧ (∀ s : Ctrl, s.isConnected = false → removeListeners s = (s, [])) := by
  refine ⟨?_, ?_, ?_, ?_⟩
  · intro p es
    exact runL_inv es (initCtrl p) (Or.inr ⟨rfl, rfl⟩)
  · intro p es hwf hc
    exact runL_lastGuard es (initCtrl p) false (fun h => by exact absurd h (by simp [initCtrl])) hwf hc
  · intro s h
    simp [addListeners, h]
  · intro s h
    simp [removeListeners, h]

/-- Witness for C1: the amended theorem applied at concrete inputs. -/
theorem C1_witness :
    listenersMatchFlag (runL (initCtrl none) [])
    ∧ lastGuardD false [LEvent.connected true false] = true
    ∧ addListeners connCtrl = (connCtrl, [])
    ∧ removeListeners (initCtrl none) = (initCtrl none, []) :=
  ⟨C1_listener_flag_invariant.1 none [],
   C1_listener_flag_invariant.2.1 none [LEvent.connected true false] (by decide) (by decide),
   C1_listener_flag_invariant.2.2.1 connCtrl rfl,
   C1_listener_flag_invariant.2.2.2 (initCtrl none) rfl⟩

/-! ## Claim C2 -/

/-- Claim C2, counterexample to the claim as stated.  The attach operation does
not register exactly four host listeners: it performs five registrations, and
one of them targets the document (mousedown), not the host. -/
theorem C2_counterexample :
    (addListeners (initCtrl none)).2.length = 5
    ∧ ListenerReg.mk EvtTarget.doc "mousedown" ∈ (addListeners (initCtrl none)).2 := by
  decide

/-- Claim C2, amended.  Attaching while detached registers exactly five
listeners, in order: mouseover, keydown, click and focusout on the host, and
mousedown on the document.  Detaching while attached removes exactly those
five when the popup reference is absent, and additionally first removes a
mouseover listener from the popup when the popup reference is present. -/
theorem C2_listener_sets :
    (∀ s : Ctrl, s.isConnected = false → (addListeners s).2 = listenersFull)
  ∧ (∀ s : Ctrl, s.isConnected = true → s.popup = none →
      (removeListeners s).2 = listenersFull)
  ∧ (∀ (s : Ctrl) (p : SlPopup), s.isConnected = true → s.popup = some p →
      (removeListeners s).2 = ListenerReg.mk EvtTarget.popup "mouseover" :: listenersFull)
  ∧ hostListenerSet.length = 4 ∧ listenersFull.length = 5 := by
  refine ⟨?_, ?_, ?_, rfl, rfl⟩
  · intro s h
    simp [addListeners, h]
  · intro s h hp
    simp [removeListeners, h, hp]
  · intro s p h hp
    simp [removeListeners, h, hp]

/-- Witness for C2: the amended theorem applied at concrete states. -/
theorem C2_witness :
    (addListeners (initCtrl none)).2 = listenersFull
    ∧ (removeListeners connCtrl).2 = listenersFull
    ∧ (removeListeners openCtrl).2
        = ListenerReg.mk EvtTarget.popup "mouseover" :: listenersFull :=
  ⟨C2_listener_sets.1 (initCtrl none) rfl,
   C2_listener_sets.2.1 connCtrl rfl rfl,
   C2_listener_sets.2.2.1 openCtrl ⟨true⟩ rfl rfl⟩

/-! ## Claim C3 -/

/-- Claim C3, confirmed.  With the popup present and closed, a mouseover on
the host while the submenu slot has content opens the popup (with one
re-render request); with the popup open, a focusout whose related target is
null or is an element outside the host subtree closes it, while a focusout
whose related target is an element inside the host subtree changes nothing. -/
theorem C3_hover_open_focusout_close :
    (∀ s : Ctrl, s.popup = some ⟨false⟩ →
      handleMouseOver true s = ({ s with popup := some ⟨true⟩ }, 1))
  ∧ (∀ s : Ctrl, s.popup = some ⟨true⟩ →
      handleFocusOut RelatedTarget.null s = ({ s with popup := some ⟨false⟩ }, 1)
      ∧ handleFocusOut (RelatedTarget.element false) s = ({ s with popup := some ⟨false⟩ }, 1))
  ∧ (∀ s : Ctrl, handleFocusOut (RelatedTarget.element true) s = (s, 0)) := by
  refine ⟨?_, ?_, ?_⟩
  · intro s h
    simp [handleMouseOver, enableSubmenu, setSubmenuState, h]
  · intro s h
    constructor <;> simp [handleFocusOut, disableSubmenu, setSubmenuState, h]
  · intro s
    simp [handleFocusOut]

/-- Witness for C3: the theorem applied at the concrete closed and open
fixtures. -/
theorem C3_witness :
    handleMouseOver true closedCtrl = (openCtrl, 1)
    ∧ handleFocusOut RelatedTarget.null openCtrl = (closedCtrl, 1)
    ∧ handleFocusOut (RelatedTarget.element false) openCtrl = (closedCtrl, 1)
    ∧ handleFocusOut (RelatedTarget.element true) openCtrl = (openCtrl, 0) :=
  ⟨C3_hover_open_focusout_close.1 closedCtrl rfl,
   (C3_hover_open_focusout_close.2.1 openCtrl rfl).1,
   (C3_hover_open_focusout_close.2.1 openCtrl rfl).2,
   C3_hover_open_focusout_close.2.2 openCtrl⟩

/-! ## Claim C4 -/

/-- Claim C4, counterexample to the claim as stated.  The keyboard-driven open
transition does change the open state, yet it issues two host re-render
requests, not exactly one: one from setSubmenuState and a second explicit
requestUpdate issued right after scheduling the focus continuation. -/
theorem C4_counterexample :
    (handleKeyDown "ArrowRight" none true [menuWrap] closedCtrl).requestUpdates = 2
    ∧ (handleKeyDown "ArrowRight" none true [menuWrap] closedCtrl).state.popup
        = some ⟨true⟩ := by
  decide

/-- Claim C4, amended.  Setting the popup state to its current value (or with
the popup absent) mutates nothing and issues no re-render request; setting it
to the opposite value flips the flag and issues exactly one.  Every
state-changing transition of an event handler issues exactly one re-render
request, except the keyboard-driven open transition (ArrowRight, Enter or
Space while closed), which issues exactly two: one from setSubmenuState and
one explicit request accompanying the deferred focus continuation. -/
theorem C4_rerender_requests :
    (∀ (s : Ctrl) (p : SlPopup), s.popup = some p → setSubmenuState p.active s = (s, 0))
  ∧ (∀ s : Ctrl, s.popup = none → ∀ b, setSubmenuState b s = (s, 0))
  ∧ (∀ (s : Ctrl) (p : SlPopup) (b : Bool), s.popup = some p → p.active = !b →
      setSubmenuState b s = ({ s with popup := some ⟨b⟩ }, 1))
  ∧ (∀ s : Ctrl, s.popup = some ⟨false⟩ → (handleMouseOver true s).2 = 1)
  ∧ (∀ s : Ctrl, s.popup = some ⟨true⟩ →
      (handleFocusOut RelatedTarget.null s).2 = 1
      ∧ (handleFocusOut (RelatedTarget.element false) s).2 = 1
      ∧ (handleDocumentMouseDown false s).2 = 1
      ∧ ∀ (fq : Option FocusedElement) (slot : Bool) (asg : List DomNode),
          (handleKeyDown "Escape" fq slot asg s).requestUpdates = 1
          ∧ (handleKeyDown "Tab" fq slot asg s).requestUpdates = 1
          ∧ (handleKeyDown "ArrowLeft" (some FocusedElement.descendant)
              slot asg s).requestUpdates = 1)
  ∧ (∀ (s : Ctrl) (asg : List DomNode) (fq : Option FocusedElement) (item : DomNode),
      s.popup = some ⟨false⟩ → firstMenuItem asg = some item →
      (handleKeyDown "ArrowRight" fq true asg s).requestUpdates = 2
      ∧ (handleKeyDown "Enter" fq true asg s).requestUpdates = 2
      ∧ (handleKeyDown " " fq true asg s).requestUpdates = 2) := by
  refine ⟨?_, ?_, ?_, ?_, ?_, ?_⟩
  · intro s p h
    simp [setSubmenuState, h]
  · intro s h b
    simp [setSubmenuState, h]
  · intro s p b h1 h2
    rcases p with ⟨a⟩
    simp only at h2
    subst h2
    cases b <;> simp [setSubmenuState, h1]
  · intro s h
    simp [handleMouseOver, enableSubmenu, setSubmenuState, h]
  · intro s h
    refine ⟨?_, ?_, ?_, ?_⟩
    · simp [handleFocusOut, disableSubmenu, setSubmenuState, h]
    · simp [handleFocusOut, disableSubmenu, setSubmenuState, h]
    · simp [handleDocumentMouseDown, disableSubmenu, setSubmenuState, h]
    · intro fq slot asg
      refine ⟨?_, ?_, ?_⟩
      · rw [handleKeyDown_escape]
        simp [disableSubmenu, setSubmenuState, h]
      · rw [handleKeyDown_tab]
        simp [disableSubmenu, setSubmenuState, h]
      · rw [handleKeyDown_arrowLeft]
        simp [disableSubmenu, setSubmenuState, h]
  · intro s asg fq item h1 h2
    refine ⟨?_, ?_, ?_⟩
    · rw [handleKeyDown_arrowRight]
      simp [h1, h2, enableSubmenu, setSubmenuState]
    · rw [handleKeyDown_enter_eq, handleKeyDown_arrowRight]
      simp [h1, h2, enableSubmenu, setSubmenuState]
    · rw [handleKeyDown_space_eq, handleKeyDown_arrowRight]
      simp [h1, h2, enableSubmenu, setSubmenuState]

/-- Witness for C4: the amended theorem applied at the concrete fixtures. -/
theorem C4_witness :
    setSubmenuState (SlPopup.mk true).active openCtrl = (openCtrl, 0)
    ∧ setSubmenuState true connCtrl = (connCtrl, 0)
    ∧ setSubmenuState true closedCtrl = (openCtrl, 1)
    ∧ (handleMouseOver true closedCtrl).2 = 1
    ∧ (handleKeyDown "Escape" none true [] openCtrl).requestUpdates = 1
    ∧ (handleKeyDown "ArrowRight" none true [menuWrap] closedCtrl).requestUpdates = 2 :=
  ⟨C4_rerender_requests.1 openCtrl ⟨true⟩ rfl,
   C4_rerender_requests.2.1 connCtrl rfl true,
   C4_rerender_requests.2.2.1 closedCtrl ⟨false⟩ true rfl rfl,
   C4_rerender_requests.2.2.2.1 closedCtrl rfl,
   ((C4_rerender_requests.2.2.2.2.1 openCtrl rfl).2.2.2 none true []).1,
   (C4_rerender_requests.2.2.2.2.2 closedCtrl [menuWrap] none menuLeaf rfl rfl).1⟩

/-! ## Claim C5 -/

/-- Claim C5, confirmed.  For ArrowRight, Enter or Space, the event is
consumed only when a first eligible nested menu item exists; when the submenu
slot cannot be located, or when it is located but no eligible item exists, the
event is left unconsumed, the state is unchanged, no re-render request and no
focus call is made, and exactly one error diagnostic is emitted; the handler
is a total function, so no exception propagates. -/
theorem C5_keyboard_open_errors :
    (∀ (key : String) (fq : Option FocusedElement) (slot : Bool)
        (asg : List DomNode) (s : Ctrl),
        key = "ArrowRight" ∨ key = "Enter" ∨ key = " " →
        ((handleKeyDown key fq slot asg s).prevented = true
          ∨ (handleKeyDown key fq slot asg s).stopped = true) →
        firstMenuItem asg ≠ none)
  ∧ (∀ (key : String) (fq : Option FocusedElement) (asg : List DomNode) (s : Ctrl),
      key = "ArrowRight" ∨ key = "Enter" ∨ key = " " →
      handleKeyDown key fq false asg s = { state := s, errors := 1 })
  ∧ (∀ (key : String) (fq : Option FocusedElement) (asg : List DomNode) (s : Ctrl),
      (key = "ArrowRight" ∨ key = "Enter" ∨ key = " ") →
      firstMenuItem asg = none →
      handleKeyDown key fq true asg s = { state := s, errors := 1 }) := by
  refine ⟨?_, ?_, ?_⟩
  · intro key fq slot asg s hk hcons hnone
    rcases hk with h | h | h
    · subst h
      rw [handleKeyDown_arrowRight] at hcons
      cases slot <;> simp [hnone] at hcons
    · subst h
      rw [handleKeyDown_enter_eq, handleKeyDown_arrowRight] at hcons
      cases slot <;> simp [hnone] at hcons
    · subst h
      rw [handleKeyDown_space_eq, handleKeyDown_arrowRight] at hcons
      cases slot <;> simp [hnone] at hcons
  · intro key fq asg s hk
    rcases hk with h | h | h <;> subst h <;> rfl
  · intro key fq asg s hk hnone
    rcases hk with h | h | h
    · subst h
      rw [handleKeyDown_arrowRight]
      simp [hnone]
    · subst h
      rw [handleKeyDown_enter_eq, handleKeyDown_arrowRight]
      simp [hnone]
    · subst h
      rw [handleKeyDown_space_eq, handleKeyDown_arrowRight]
      simp [hnone]

/-- Witness for C5: the theorem applied at concrete inputs (a consuming
invocation with an eligible item, a missing slot, and an empty submenu). -/
theorem C5_witness :
    firstMenuItem [menuWrap] ≠ none
    ∧ handleKeyDown "ArrowRight" none false [] (initCtrl none)
        = { state := initCtrl none, errors := 1 }
    ∧ handleKeyDown "Enter" none true [] openCtrl
        = { state := openCtrl, errors := 1 } :=
  ⟨C5_keyboard_open_errors.1 "ArrowRight" none true [menuWrap] openCtrl
      (Or.inl rfl) (Or.inl (by decide)),
   C5_keyboard_open_errors.2.1 "ArrowRight" none [] (initCtrl none) (Or.inl rfl),
   C5_keyboard_open_errors.2.2 "Enter" none [] openCtrl (Or.inr (Or.inl rfl)) rfl⟩

/-! ## Claim C6 -/

/-- Claim C6, confirmed.  On ArrowLeft with focus on a descendant of the host
(not the host itself), the popup closes, focus moves back to the host, and the
event is consumed; when the focused-element query finds nothing within the
host (focus on the host itself), the event is not consumed and nothing
changes. -/
theorem C6_arrowLeft_navigation :
    (∀ (fq : Option FocusedElement) (slot : Bool) (asg : List DomNode) (s : Ctrl),
      s.popup = some ⟨true⟩ → fq = some FocusedElement.descendant →
      handleKeyDown "ArrowLeft" fq slot asg s =
        { state := { s with popup := some ⟨false⟩ }, prevented := true, stopped := true,
          focusHost := true, requestUpdates := 1 })
  ∧ (∀ (fq : Option FocusedElement) (slot : Bool) (asg : List DomNode) (s : Ctrl),
      fq = none ∨ fq = some FocusedElement.hostItself →
      handleKeyDown "ArrowLeft" fq slot asg s = { state := s }) := by
  constructor
  · intro fq slot asg s hp hf
    subst hf
    rw [handleKeyDown_arrowLeft]
    simp [disableSubmenu, setSubmenuState, hp]
  · intro fq slot asg s hf
    rcases hf with h | h <;> subst h <;> rw [handleKeyDown_arrowLeft]

/-- Witness for C6: the theorem applied at the open fixture with focus on a
descendant, and with focus on the host itself. -/
theorem C6_witness :
    handleKeyDown "ArrowLeft" (some FocusedElement.descendant) true [] openCtrl =
      { state := closedCtrl, prevented := true, stopped := true,
        focusHost := true, requestUpdates := 1 }
    ∧ handleKeyDown "ArrowLeft" (some FocusedElement.hostItself) true [] openCtrl
        = { state := openCtrl } :=
  ⟨C6_arrowLeft_navigation.1 (some FocusedElement.descendant) true [] openCtrl rfl rfl,
   C6_arrowLeft_navigation.2 (some FocusedElement.hostItself) true [] openCtrl (Or.inr rfl)⟩

/-! ## Claim C7 -/

/-- Claim C7, confirmed.  The computed skidding equals the negated sum of the
pixel values of top padding, top border width and top margin of the host
parent, absent or non-length values contributing zero; with 8px, 1px and 2px
it equals -11; it is recomputed by every hostUpdated whose guard holds, and no
other operation (hostUpdated with failing guard, hostConnected,
hostDisconnected, the popup-state setter, or any event handler) mutates it. -/
theorem C7_skidding_offset :
    (∀ m : String → Option CSSStyleValue,
      skiddingOf m =
        -(pxOf (m "padding-top") + pxOf (m "border-top-width") + pxOf (m "margin-top")))
  ∧ skiddingOf exampleStyleMap = -11
  ∧ (∀ (m : String → Option CSSStyleValue) (s : Ctrl),
      (hostUpdated true false m s).skidding = skiddingOf m)
  ∧ (∀ (m : String → Option CSSStyleValue) (dis : Bool) (s : Ctrl),
      (hostUpdated false dis m s).skidding = s.skidding)
  ∧ (∀ (m : String → Option CSSStyleValue) (s : Ctrl),
      (hostUpdated true true m s).skidding = s.skidding)
  ∧ (∀ (hs dis : Bool) (s : Ctrl), (hostConnected hs dis s).skidding = s.skidding)
  ∧ (∀ s : Ctrl, (hostDisconnected s).skidding = s.skidding)
  ∧ (∀ (b : Bool) (s : Ctrl), (setSubmenuState b s).1.skidding = s.skidding)
  ∧ (∀ (hs : Bool) (s : Ctrl), (handleMouseOver hs s).1.skidding = s.skidding)
  ∧ (∀ (rt : RelatedTarget) (s : Ctrl), (handleFocusOut rt s).1.skidding = s.skidding)
  ∧ (∀ (b : Bool) (s : Ctrl), (handleDocumentMouseDown b s).1.skidding = s.skidding)
  ∧ (∀ (key : String) (fq : Option FocusedElement) (slot : Bool)
      (asg : List DomNode) (s : Ctrl),
      (handleKeyDown key fq slot asg s).state.skidding = s.skidding) := by
  refine ⟨skiddingOf_eq_neg_sum, ?_, ?_, ?_, ?_, ?_, ?_,
    setSubmenuState_fst_skidding, ?_, ?_, ?_, handleKeyDown_skidding⟩
  · rw [skiddingOf_eq_neg_sum]
    show -((8 : ℚ) + 1 + 2) = -11
    norm_num
  · intro m s
    simp [hostUpdated, updateSkidding]
  · intro m dis s
    simp [hostUpdated, removeListeners_fst_skidding]
  · intro m s
    simp [hostUpdated, removeListeners_fst_skidding]
  · intro hs dis s
    unfold hostConnected
    split
    · exact addListeners_fst_skidding s
    · rfl
  · intro s
    exact removeListeners_fst_skidding s
  · intro hs s
    unfold handleMouseOver
    split
    · exact setSubmenuState_fst_skidding true s
    · rfl
  · intro rt s
    unfold handleFocusOut
    repeat' split
    all_goals first
      | exact setSubmenuState_fst_skidding false s
      | rfl
  · intro b s
    unfold handleDocumentMouseDown
    split
    · exact setSubmenuState_fst_skidding false s
    · rfl

/-! ## Claim C8 -/

/-- Claim C8, counterexample to the claim as stated.  The claim says the
search returns, within each assigned node subtree, the first matching element
in document order; a subtree includes its root, but the source uses
querySelector, which only ever returns strict descendants.  With a single
assigned node that is itself a menu item and has no descendants, the search
according to the claim finds that node, while the code finds nothing. -/
theorem C8_counterexample :
    firstMenuItem [menuLeaf] = none
    ∧ firstMenuItemSpec [menuLeaf] = some menuLeaf :=
  ⟨rfl, rfl⟩

/-- Claim C8, amended.  First-eligible-item resolution searches each top-level
assigned node in assignment order and, within the strict descendants of each
node (the assigned node itself is not considered), returns the first element
in document (pre-order) order that is an sl-menu-item element or has a role
attribute beginning with menuitem; the result is the first such match across
all assigned nodes; and when no match exists, the handler leaves the state
unchanged, emits one error diagnostic and returns normally. -/
theorem C8_first_item_resolution :
    (∀ asg : List DomNode,
      firstMenuItem asg =
        ((asg.map (fun e => preorderList e.children)).flatten).find? matchesMenuItem)
  ∧ (∀ (key : String) (fq : Option FocusedElement) (asg : List DomNode) (s : Ctrl),
      (key = "ArrowRight" ∨ key = "Enter" ∨ key = " ") →
      firstMenuItem asg = none →
      handleKeyDown key fq true asg s = { state := s, errors := 1 }) := by
  constructor
  · exact firstMenuItem_eq_find
  · intro key fq asg s hk hnone
    rcases hk with h | h | h
    · subst h
      rw [handleKeyDown_arrowRight]
      simp [hnone]
    · subst h
      rw [handleKeyDown_enter_eq, handleKeyDown_arrowRight]
      simp [hnone]
    · subst h
      rw [handleKeyDown_space_eq, handleKeyDown_arrowRight]
      simp [hnone]

/-- Witness for C8: the amended theorem applied at a concrete assigned list
with a nested item, and at an empty assigned list. -/
theorem C8_witness :
    firstMenuItem [menuWrap] =
      (([menuWrap].map (fun e => preorderList e.children)).flatten).find? matchesMenuItem
    ∧ handleKeyDown " " none true [] closedCtrl = { state := closedCtrl, errors := 1 } :=
  ⟨C8_first_item_resolution.1 [menuWrap],
   C8_first_item_resolution.2 " " none [] closedCtrl (Or.inr (Or.inr rfl)) rfl⟩

/-! ## Claim C9 -/

/-- Claim C9: the code does not satisfy it.  The continuation scheduled on a
keyboard-driven open consists solely of the focus call on the captured first
menu item; it checks no connection state, so when the controller is torn down
(hostDisconnected) before it fires, firing it still performs the focus call on
the now-detached subtree instead of being a no-op.  This theorem evaluates the
code at the failing input: ArrowRight opens the submenu and schedules the
continuation, the host is then disconnected, and the continuation still
performs one focus call. -/
theorem C9_continuation_not_guarded :
    (handleKeyDown "ArrowRight" none true [menuWrap] closedCtrl).deferredFocus
      = some menuLeaf
    ∧ (hostDisconnected
        (handleKeyDown "ArrowRight" none true [menuWrap] closedCtrl).state).isConnected
      = false
    ∧ fireContinuation
        (handleKeyDown "ArrowRight" none true [menuWrap] closedCtrl).deferredFocus
      = [menuLeaf] :=
  ⟨rfl, by decide, rfl⟩

/-! ## Claim C10 -/

/-- Claim C10, confirmed.  While the popup reference is absent, every
popup-touching operation is a no-op issuing no re-render request —
setSubmenuState with either value, enableSubmenu and disableSubmenu all return
the state unchanged with zero requests (and, being total, complete without
error) — and isExpanded returns false. -/
theorem C10_popup_absent_noop :
    ∀ s : Ctrl, s.popup = none →
      (∀ b : Bool, setSubmenuState b s = (s, 0))
      ∧ enableSubmenu s = (s, 0)
      ∧ disableSubmenu s = (s, 0)
      ∧ isExpanded s = false := by
  intro s h
  refine ⟨?_, ?_, ?_, ?_⟩ <;>
    simp [setSubmenuState, enableSubmenu, disableSubmenu, isExpanded, h]

/-- Witness for C10: the theorem applied at the connected fixture with no
popup rendered. -/
theorem C10_witness :
    (∀ b : Bool, setSubmenuState b connCtrl = (connCtrl, 0))
    ∧ enableSubmenu connCtrl = (connCtrl, 0)
    ∧ disableSubmenu connCtrl = (connCtrl, 0)
    ∧ isExpanded connCtrl = false :=
  C10_popup_absent_noop connCtrl rfl

end Submenu
